import Mathlib

/-!
# Verification of the SocketInsight WebSocket supervisor (`src/index.js`)

Shallow embedding of the `SocketInsight` class: a wrapper around a single
WebSocket connection that forwards transport events to user-registered
callbacks and re-establishes the transport on abnormal closure up to a
fixed retry budget.

The embedding is parameterised by an abstract type `κ` of
user callbacks; the supervisor never calls a callback body itself, it only
records "invoke this callback with these arguments" in its effect trace.
Effects (console output, socket operations, timer scheduling, callback
invocations) are made explicit as a list of `Effect` values returned next
to the updated object state, so that properties such as "no write is
performed" or "the close callback fires exactly once" are statements
about that trace.
-/

/-- The readyState constants of the `ws` WebSocket class
(`WebSocket.CONNECTING/OPEN/CLOSING/CLOSED`). -/
def WS_CONNECTING : Int := 0

def WS_OPEN : Int := 1

def WS_CLOSING : Int := 2

def WS_CLOSED : Int := 3

/-- Argument vectors passed to user callbacks: `open()`, `message(data)`,
`close(code, reason)`, `error(event)` (the error event is represented by
its message string). -/
inductive CallArgs where
  | openArgs
  | messageArgs (data : String)
  | closeArgs (code : Int) (reason : String)
  | errorArgs (message : String)
  deriving DecidableEq

/-- One observable side effect of a `SocketInsight` method:
`console.log` / `console.error` lines, invocation of a user callback,
and the operations on the underlying socket / timer environment. -/
inductive Effect (κ : Type) where
  | log (line : String)
  | logError (line : String)
  | invoke (cb : κ) (args : CallArgs)
  | wsSend (message : String)
  | wsClose (code : Int) (reason : String)
  | wsConnect (url : String)
  | setTimeout (delayMs : Int)
  deriving DecidableEq

namespace Effect

variable {κ : Type}

/-- Is this effect the scheduling of a reconnect timer (`setTimeout`)? -/
def isSetTimeout : Effect κ → Bool
  | .setTimeout _ => true
  | _ => false

/-- Is this effect the creation of a new transport (`new WebSocket(url)`)? -/
def isConnect : Effect κ → Bool
  | .wsConnect _ => true
  | _ => false

/-- Is this effect a write to the transport (`socket.send`)? -/
def isSend : Effect κ → Bool
  | .wsSend _ => true
  | _ => false

/-- Is this effect the invocation of a user callback? -/
def isInvoke : Effect κ → Bool
  | .invoke _ _ => true
  | _ => false

/-- Is this effect a `console.error` diagnostic line? -/
def isLogError : Effect κ → Bool
  | .logError _ => true
  | _ => false

/-- Is this effect pure observability (a console line) or a callback
invocation — i.e. neither a socket operation nor a timer scheduling? -/
def isPassive : Effect κ → Bool
  | .log _ => true
  | .logError _ => true
  | .invoke _ _ => true
  | _ => false

/-- Is this effect a verbatim transport write of the message `m`? -/
def sendsMsg (m : String) : Effect κ → Bool
  | .wsSend m' => m' == m
  | _ => false

end Effect

/-- The mutable state of a `SocketInsight` instance together with the two
bits of environment state its behaviour depends on: the `readyState` of
the currently owned socket handle and whether a reconnect timer scheduled
by `handleClose` is still pending.  `listeners` is the plain-object map
`this.listeners` (property lookup by event-name string). -/
structure SocketInsight (κ : Type) where
  url : String
  retryAttempts : Int
  retryDelay : Int
  listeners : String → Option κ
  readyState : Int
  timerPending : Bool

/-- Constructor options object: each recognized key is either absent
(`undefined`) or an integer. -/
structure Options where
  retryAttempts : Option Int := none
  retryDelay : Option Int := none

/-- JavaScript `x || d` for `x : number | undefined`: the default is used
when `x` is absent or falsy (for integers, falsy means `0`). -/
def orDefault (v : Option Int) (d : Int) : Int :=
  match v with
  | none => d
  | some x => if x = 0 then d else x

namespace SocketInsight

variable {κ : Type}

/-- `connect()`: `this.socket = new WebSocket(this.url)` plus the four
`addEventListener` registrations.  The fresh handle starts in the
`CONNECTING` readyState; the event interceptors are implicit in the
`step` relation below. -/
def connect (s : SocketInsight κ) : SocketInsight κ × List (Effect κ) :=
  ({ s with readyState := WS_CONNECTING }, [Effect.wsConnect s.url])

/-- `constructor(url, options = {})`: initialize the fields with
`options.retryAttempts || 3` and `options.retryDelay || 1000`, an empty
listener map, and immediately `connect()`. -/
def init (url : String) (options : Options) :
    SocketInsight κ × List (Effect κ) :=
  connect
    { url := url
      retryAttempts := orDefault options.retryAttempts 3
      retryDelay := orDefault options.retryDelay 1000
      listeners := fun _ => none
      readyState := WS_CLOSED
      timerPending := false }

/-- `handleOpen()`: log and forward to the registered `open` listener. -/
def handleOpen (s : SocketInsight κ) : SocketInsight κ × List (Effect κ) :=
  (s, Effect.log ("[SocketInsight] Connected to " ++ s.url) ::
    (match s.listeners "open" with
     | some cb => [Effect.invoke cb CallArgs.openArgs]
     | none => []))

/-- `handleMessage(event)`: log and forward `event.data` to the
registered `message` listener. -/
def handleMessage (data : String) (s : SocketInsight κ) :
    SocketInsight κ × List (Effect κ) :=
  (s, Effect.log ("[SocketInsight] Received message: " ++ data) ::
    (match s.listeners "message" with
     | some cb => [Effect.invoke cb (CallArgs.messageArgs data)]
     | none => []))

/-- `handleClose(event)`: log the closure; if `event.code !== 1000 &&
this.retryAttempts > 0`, log the retry notice and schedule a reconnect
timer (`setTimeout`, delay `this.retryDelay`); in all cases forward
`(code, reason)` to the registered `close` listener. -/
def handleClose (code : Int) (reason : String) (s : SocketInsight κ) :
    SocketInsight κ × List (Effect κ) :=
  let retry : SocketInsight κ × List (Effect κ) :=
    if code ≠ 1000 ∧ s.retryAttempts > 0 then
      ({ s with timerPending := true },
       [Effect.log ("[SocketInsight] Retrying connection in " ++
          toString s.retryDelay ++ "ms..."),
        Effect.setTimeout s.retryDelay])
    else (s, [])
  (retry.1,
   Effect.log ("[SocketInsight] Disconnected with code " ++ toString code ++
     " and reason: " ++ reason) ::
   retry.2 ++
   (match s.listeners "close" with
    | some cb => [Effect.invoke cb (CallArgs.closeArgs code reason)]
    | none => []))

/-- The body of the `setTimeout` callback scheduled by `handleClose`:
`this.retryAttempts--; this.connect();`. -/
def timerFired (s : SocketInsight κ) : SocketInsight κ × List (Effect κ) :=
  connect { s with retryAttempts := s.retryAttempts - 1 }

/-- `handleError(event)`: `console.error` and forward to the registered
`error` listener. -/
def handleError (message : String) (s : SocketInsight κ) :
    SocketInsight κ × List (Effect κ) :=
  (s, Effect.logError ("[SocketInsight] Error: " ++ message) ::
    (match s.listeners "error" with
     | some cb => [Effect.invoke cb (CallArgs.errorArgs message)]
     | none => []))

/-- `sendMessage(message)`: guarded write — send only when the current
`readyState` is `WebSocket.OPEN`, otherwise only a `console.error`. -/
def sendMessage (message : String) (s : SocketInsight κ) :
    SocketInsight κ × List (Effect κ) :=
  if s.readyState = WS_OPEN then
    (s, [Effect.wsSend message,
         Effect.log ("[SocketInsight] Sent message: " ++ message)])
  else
    (s, [Effect.logError
          ("[SocketInsight] Cannot send message, WebSocket is not open. Current readyState: " ++
            toString s.readyState)])

/-- `closeConnection()`: close the socket with code 1000 and the fixed
reason string, plus a log line. -/
def closeConnection (s : SocketInsight κ) :
    SocketInsight κ × List (Effect κ) :=
  (s, [Effect.wsClose 1000 "Client closed the connection",
       Effect.log ("[SocketInsight] Closed connection to " ++ s.url)])

/-- Plain-object property assignment `this.listeners[event] = listener`. -/
def setListener (l : String → Option κ) (event : String) (listener : κ) :
    String → Option κ :=
  fun e => if e = event then some listener else l e

/-- `on(event, listener)`: store the listener, replacing any previous
registration under the same name.  The name `on` is reserved by Mathlib,
so this def carries the name the spec gives the method, RegisterListener. -/
def registerListener (event : String) (listener : κ) (s : SocketInsight κ) :
    SocketInsight κ × List (Effect κ) :=
  ({ s with listeners := setListener s.listeners event listener }, [])

/-- The event-name strings the dispatch code (`handleOpen`,
`handleMessage`, `handleClose`, `handleError`) actually reads from the
listener map. -/
def knownNames : List String := ["open", "message", "close", "error"]

/-- Stimuli that drive a `SocketInsight` instance: the four transport
events, the firing of a pending reconnect timer, and the caller-facing
API calls. -/
inductive Event (κ : Type) where
  | opened
  | message (data : String)
  | closed (code : Int) (reason : String)
  | errored (message : String)
  | timerFire
  | register (name : String) (cb : κ)
  | send (message : String)
  | closeConn

/-- Environment enabledness of a stimulus: the current socket delivers
`open` only while connecting, `message` only while open, and at most one
`close` (none once it is already closed); the reconnect timer can fire
only while pending.  API calls are always available to the caller. -/
def enabled (s : SocketInsight κ) : Event κ → Bool
  | .opened => s.readyState == WS_CONNECTING
  | .message _ => s.readyState == WS_OPEN
  | .closed _ _ => !(s.readyState == WS_CLOSED)
  | .errored _ => true
  | .timerFire => s.timerPending
  | .register _ _ => true
  | .send _ => true
  | .closeConn => true

/-- One dispatch step: the environment updates the socket/timer status
(readyState transitions, timer consumption) and the corresponding
`SocketInsight` code runs. -/
def step (s : SocketInsight κ) : Event κ → SocketInsight κ × List (Effect κ)
  | .opened => handleOpen { s with readyState := WS_OPEN }
  | .message d => handleMessage d s
  | .closed c r => handleClose c r { s with readyState := WS_CLOSED }
  | .errored m => handleError m s
  | .timerFire => timerFired { s with timerPending := false }
  | .register n cb => registerListener n cb s
  | .send m => sendMessage m s
  | .closeConn => closeConnection s

/-- States reachable from `s0` by enabled dispatch steps. -/
inductive ReachableFrom (s0 : SocketInsight κ) : SocketInsight κ → Prop where
  | refl : ReachableFrom s0 s0
  | next {t : SocketInsight κ} (e : Event κ) :
      ReachableFrom s0 t → enabled t e = true →
      ReachableFrom s0 (step t e).1

/-- One round of the adversarial transport: deliver an abnormal closure
(code 1006) and, if that scheduled a reconnect timer, let the timer fire.
Returns the resulting state and whether a reconnect attempt was made. -/
def pressure (s : SocketInsight κ) : SocketInsight κ × Bool :=
  let s1 := (step s (Event.closed 1006 "abnormal closure")).1
  if s1.timerPending then ((step s1 Event.timerFire).1, true)
  else (s1, false)

/-- Number of reconnect attempts made during `k` rounds of consecutive
abnormal closures. -/
def pressureCount (s : SocketInsight κ) : Nat → Nat
  | 0 => 0
  | k + 1 =>
    let p := pressure s
    (if p.2 then 1 else 0) + pressureCount p.1 k

end SocketInsight

namespace SocketInsight

variable {κ : Type}

/-- Helper: a close event with code 1000 leaves the pending-timer status
unchanged and produces neither a `setTimeout` nor a new transport. -/
lemma step_closed_1000_spec (s : SocketInsight κ) (r : String) :
    (step s (Event.closed 1000 r)).1.timerPending = s.timerPending ∧
    (step s (Event.closed 1000 r)).2.any Effect.isSetTimeout = false ∧
    (step s (Event.closed 1000 r)).2.any Effect.isConnect = false := by
  rcases h : s.listeners "close" with _ | cb <;>
    simp [step, handleClose, h, Effect.isSetTimeout, Effect.isConnect]

/-- Claim C4: a close event with code 1000 never triggers a reconnect:
the handler schedules no timer (the pending status is exactly what it was
before) and opens no new transport, whatever the remaining retry budget. -/
theorem close_1000_no_reconnect (s : SocketInsight κ) (r : String) :
    (step s (Event.closed 1000 r)).1.timerPending = s.timerPending ∧
    (step s (Event.closed 1000 r)).2.any Effect.isSetTimeout = false ∧
    (step s (Event.closed 1000 r)).2.any Effect.isConnect = false :=
  step_closed_1000_spec s r

/-- Claim C5: `sendMessage` is a guarded write: the state is unchanged
(nothing is queued), the transport writes are exactly the verbatim
message when the readyState is OPEN and nothing otherwise, no callback is
invoked, and a `console.error` diagnostic appears exactly when the
transport is not open.  The function is total, so it never throws. -/
theorem sendMessage_guarded (s : SocketInsight κ) (m : String) :
    (sendMessage m s).1 = s ∧
    (sendMessage m s).2.filter Effect.isSend =
      (if s.readyState == WS_OPEN then [Effect.wsSend m] else []) ∧
    (sendMessage m s).2.any Effect.isInvoke = false ∧
    (sendMessage m s).2.any Effect.isLogError = !(s.readyState == WS_OPEN) := by
  by_cases h : s.readyState = WS_OPEN <;>
    simp [sendMessage, h, Effect.isSend, Effect.isInvoke, Effect.isLogError]

/-- Claim C6: `closeConnection` closes the transport with code 1000 and
the exact reason string "Client closed the connection" (and changes
nothing else), and a closure with code 1000 never triggers a reconnect. -/
theorem closeConnection_clean (s t : SocketInsight κ) (r : String) :
    (closeConnection s).1 = s ∧
    (closeConnection s).2 =
      [Effect.wsClose 1000 "Client closed the connection",
       Effect.log ("[SocketInsight] Closed connection to " ++ s.url)] ∧
    (step t (Event.closed 1000 r)).1.timerPending = t.timerPending ∧
    (step t (Event.closed 1000 r)).2.any Effect.isSetTimeout = false ∧
    (step t (Event.closed 1000 r)).2.any Effect.isConnect = false :=
  ⟨rfl, rfl, step_closed_1000_spec t r⟩

/-- Claim C10: the open, message and error handlers modify no field of
the supervisor object, and every effect they emit is passive (a console
diagnostic or a callback invocation) — in particular a successful
(re)connection never resets the retry budget and an error event never by
itself schedules a reconnect or touches the transport. -/
theorem passive_handlers (s : SocketInsight κ) (d m : String) :
    (handleOpen s).1 = s ∧
    (handleMessage d s).1 = s ∧
    (handleError m s).1 = s ∧
    (handleOpen s).2.all Effect.isPassive = true ∧
    (handleMessage d s).2.all Effect.isPassive = true ∧
    (handleError m s).2.all Effect.isPassive = true := by
  refine ⟨rfl, rfl, rfl, ?_, ?_, ?_⟩
  · rcases h : s.listeners "open" with _ | cb <;>
      simp [handleOpen, h, Effect.isPassive]
  · rcases h : s.listeners "message" with _ | cb <;>
      simp [handleMessage, h, Effect.isPassive]
  · rcases h : s.listeners "error" with _ | cb <;>
      simp [handleError, h, Effect.isPassive]

/-- Counterexample to claim C2: constructing with `retryAttempts: 0`
does not give a retry budget of 0 — JavaScript `0 || 3` evaluates to 3,
so the budget is 3. -/
theorem retryAttempts_zero_counterexample :
    (init (κ := Unit) "wss://example.com" { retryAttempts := some 0 }).1.retryAttempts = 3 ∧
    ¬ (init (κ := Unit) "wss://example.com" { retryAttempts := some 0 }).1.retryAttempts = 0 := by
  constructor <;> decide

/-- Claim C2 (amended): constructing with a positive `retryAttempts: N`
initializes the retry budget to exactly N; omitting the option yields the
default 3; and `retryAttempts: 0` also falls back to the default 3
because the source uses the falsy-default idiom `options.retryAttempts || 3`. -/
theorem retryAttempts_init_amended (u : String) (N : Int) :
    (0 < N →
      (init (κ := κ) u { retryAttempts := some N }).1.retryAttempts = N) ∧
    (init (κ := κ) u {}).1.retryAttempts = 3 ∧
    (init (κ := κ) u { retryAttempts := some 0 }).1.retryAttempts = 3 := by
  refine ⟨?_, rfl, rfl⟩
  intro hN
  simp [init, connect, orDefault]
  omega

/-- Witness for the amended claim C2 at N = 5. -/
theorem retryAttempts_init_amended_witness :
    (init (κ := Unit) "wss://example.com" { retryAttempts := some 5 }).1.retryAttempts = 5 :=
  (retryAttempts_init_amended (κ := Unit) "wss://example.com" 5).1 (by decide)

/-- Counterexample to claim C3: constructing with `retryDelay: 0` (the
option the spec calls retryDelayMs) does not give a delay of 0 —
JavaScript `0 || 1000` evaluates to 1000. -/
theorem retryDelay_zero_counterexample :
    (init (κ := Unit) "wss://example.com" { retryDelay := some 0 }).1.retryDelay = 1000 ∧
    ¬ (init (κ := Unit) "wss://example.com" { retryDelay := some 0 }).1.retryDelay = 0 := by
  constructor <;> decide

/-- Claim C3 (amended): constructing with a positive `retryDelay: d`
(the option the spec names retryDelayMs) sets the reconnect pause to d
milliseconds — every scheduled reconnect timer uses exactly the stored
delay; omitting the option yields the default 1000; and `retryDelay: 0`
falls back to 1000 because of the falsy-default idiom
`options.retryDelay || 1000`. -/
theorem retryDelay_init_amended (u : String) (d : Int) :
    (0 < d →
      (init (κ := κ) u { retryDelay := some d }).1.retryDelay = d) ∧
    (init (κ := κ) u {}).1.retryDelay = 1000 ∧
    (init (κ := κ) u { retryDelay := some 0 }).1.retryDelay = 1000 ∧
    (∀ (s : SocketInsight κ) (c : Int) (r : String),
      c ≠ 1000 → 0 < s.retryAttempts →
      (step s (Event.closed c r)).2.filter Effect.isSetTimeout =
        [Effect.setTimeout s.retryDelay]) := by
  refine ⟨?_, rfl, rfl, ?_⟩
  · intro hd
    simp [init, connect, orDefault]
    omega
  · intro s c r hc hb
    rcases h : s.listeners "close" with _ | cb <;>
      simp [step, handleClose, h, hc, hb, Effect.isSetTimeout]

/-- Witness for the amended claim C3 at d = 50, with a concrete abnormal
closure showing the scheduled timer delay. -/
theorem retryDelay_init_amended_witness :
    (init (κ := Unit) "wss://example.com" { retryDelay := some 50 }).1.retryDelay = 50 ∧
    (step (init (κ := Unit) "wss://example.com" { retryDelay := some 50 }).1
        (Event.closed 1006 "abnormal closure")).2.filter Effect.isSetTimeout =
      [Effect.setTimeout 50] :=
  ⟨(retryDelay_init_amended (κ := Unit) "wss://example.com" 50).1 (by decide),
   (retryDelay_init_amended (κ := Unit) "wss://example.com" 50).2.2.2
     (init (κ := Unit) "wss://example.com" { retryDelay := some 50 }).1
     1006 "abnormal closure" (by decide) (by decide)⟩

end SocketInsight

namespace SocketInsight

variable {κ : Type}

/-- Claim C7: whenever a close listener `cb` is registered, a close event
with code `c` and reason `r` invokes `cb` exactly once, with exactly
`(c, r)` as arguments, whether or not a reconnect is scheduled. -/
theorem close_callback_fires_once [DecidableEq κ] (s : SocketInsight κ)
    (c : Int) (r : String) (cb : κ) (h : s.listeners "close" = some cb) :
    ((step s (Event.closed c r)).2.count
      (Effect.invoke cb (CallArgs.closeArgs c r))) = 1 := by
  by_cases hc : c ≠ 1000 ∧ s.retryAttempts > 0 <;>
    simp [step, handleClose, h, hc, List.count_cons, List.count_append]

/-- Witness for claim C7: a concrete supervisor with a registered close
listener receives one invocation for an abnormal closure. -/
theorem close_callback_fires_once_witness :
    ((step
        { url := "wss://example.com", retryAttempts := 3, retryDelay := 1000,
          listeners := setListener (fun _ => none) "close" (7 : Nat),
          readyState := WS_OPEN, timerPending := false }
        (Event.closed 1006 "network failure")).2.count
      (Effect.invoke 7 (CallArgs.closeArgs 1006 "network failure"))) = 1 :=
  close_callback_fires_once _ 1006 "network failure" 7 (by simp [setListener])

/-- Helper: every callback invocation emitted by a dispatch step comes
from the listener map at one of the four event names the handlers read. -/
lemma invoke_mem_step {s : SocketInsight κ} {ev : Event κ} {cb : κ}
    {a : CallArgs} (h : Effect.invoke cb a ∈ (step s ev).2) :
    ∃ n, n ∈ knownNames ∧ s.listeners n = some cb := by
  cases ev with
  | opened =>
    rcases hl : s.listeners "open" with _ | cb' <;>
      simp [step, handleOpen, hl] at h
    exact ⟨"open", by simp [knownNames], by rw [hl, h.1]⟩
  | message d =>
    rcases hl : s.listeners "message" with _ | cb' <;>
      simp [step, handleMessage, hl] at h
    exact ⟨"message", by simp [knownNames], by rw [hl, h.1]⟩
  | closed c r =>
    rcases hl : s.listeners "close" with _ | cb' <;>
      by_cases hc : c ≠ 1000 ∧ s.retryAttempts > 0 <;>
        simp [step, handleClose, hl, hc] at h <;>
      exact ⟨"close", by simp [knownNames], by rw [hl, h.1]⟩
  | errored m =>
    rcases hl : s.listeners "error" with _ | cb' <;>
      simp [step, handleError, hl] at h
    exact ⟨"error", by simp [knownNames], by rw [hl, h.1]⟩
  | timerFire => simp [step, timerFired, connect] at h
  | register n f => simp [step, registerListener] at h
  | send m =>
    by_cases ho : s.readyState = WS_OPEN <;> simp [step, sendMessage, ho] at h
  | closeConn => simp [step, closeConnection] at h

/-- Claim C8: listener registration is last-wins — registering `f` and
then `g` under the same name is the same map as registering only `g`, so
at most one callback is stored per name; every invocation a dispatch step
emits comes from the listener map at one of the four known event names,
so an overwritten callback is never invoked; and a callback stored only
under an unrecognized name is stored (`setListener` keeps it) but never
invoked by any dispatch step. -/
theorem listener_registry (l : String → Option κ) (e : String) (f g : κ) :
    (setListener (setListener l e f) e g = setListener l e g) ∧
    (∀ (s : SocketInsight κ) (ev : Event κ) (cb : κ) (a : CallArgs),
      Effect.invoke cb a ∈ (step s ev).2 →
      ∃ n, n ∈ knownNames ∧ s.listeners n = some cb) ∧
    (∀ (s : SocketInsight κ) (name : String) (cb : κ) (ev : Event κ)
        (a : CallArgs),
      name ∉ knownNames → (∀ n, s.listeners n ≠ some cb) →
      (setListener s.listeners name cb name = some cb ∧
       Effect.invoke cb a ∉
         (step { s with listeners := setListener s.listeners name cb } ev).2)) := by
  refine ⟨?_, fun s ev cb a h => invoke_mem_step h, ?_⟩
  · funext e'
    by_cases h : e' = e <;> simp [setListener, h]
  · intro s name cb ev a hname hnot
    refine ⟨by simp [setListener], fun hmem => ?_⟩
    obtain ⟨n, hn, hsome⟩ := invoke_mem_step hmem
    have hne : n ≠ name := fun hEq => hname (hEq ▸ hn)
    rw [show ({ s with listeners := setListener s.listeners name cb } :
          SocketInsight κ).listeners = setListener s.listeners name cb from rfl,
        setListener] at hsome
    simp [hne] at hsome
    exact hnot n hsome

/-- Witness for claim C8: concrete double registration collapses to the
second callback, and a concrete dispatch invocation is traced back to the
known name it was registered under. -/
theorem listener_registry_witness :
    (setListener (setListener (fun _ => none) "close" (1 : Nat)) "close" 2 =
      setListener (fun _ => none) "close" 2) ∧
    (∃ n, n ∈ knownNames ∧
      ({ url := "wss://example.com", retryAttempts := 3, retryDelay := 1000,
         listeners := setListener (fun _ => none) "open" (5 : Nat),
         readyState := WS_CONNECTING, timerPending := false } :
         SocketInsight Nat).listeners n = some 5) :=
  ⟨(listener_registry (fun _ => none) "close" (1 : Nat) 2).1,
   (listener_registry (fun _ => none) "close" (1 : Nat) 2).2.1
     { url := "wss://example.com", retryAttempts := 3, retryDelay := 1000,
       listeners := setListener (fun _ => none) "open" (5 : Nat),
       readyState := WS_CONNECTING, timerPending := false }
     Event.opened 5 CallArgs.openArgs
     (by simp [step, handleOpen, setListener])⟩

end SocketInsight

namespace SocketInsight

variable {κ : Type}

/-- Helper: with a positive retry budget and no pending timer, one round
of abnormal closure schedules and fires a reconnect: the budget drops by
one, a fresh connecting transport is owned, and a reconnect happened. -/
lemma pressure_pos {s : SocketInsight κ} (hb : 0 < s.retryAttempts) :
    pressure s =
      ({ s with retryAttempts := s.retryAttempts - 1,
                readyState := WS_CONNECTING, timerPending := false }, true) := by
  simp [pressure, step, handleClose, timerFired, connect, hb]

/-- Helper: with an exhausted budget and no pending timer, an abnormal
closure leaves the socket closed and makes no reconnect attempt. -/
lemma pressure_zero {s : SocketInsight κ} (hb : ¬ 0 < s.retryAttempts)
    (hp : s.timerPending = false) :
    pressure s = ({ s with readyState := WS_CLOSED }, false) := by
  simp [pressure, step, handleClose, hb, hp]

/-- Helper: under `k` consecutive abnormal closures, a supervisor whose
budget is `N` (and whose reconnect timer is not pending) makes exactly
`min k N` reconnect attempts. -/
lemma pressureCount_eq_min (k : Nat) :
    ∀ (s : SocketInsight κ) (N : Nat), s.retryAttempts = (N : Int) →
      s.timerPending = false → pressureCount s k = min k N := by
  induction k with
  | zero => intro s N _ _; simp [pressureCount]
  | succ k ih =>
    intro s N hb hp
    have hrec : pressureCount s (k + 1) =
        (if (pressure s).2 then 1 else 0) + pressureCount (pressure s).1 k := by
      simp [pressureCount]
    by_cases hpos : 0 < s.retryAttempts
    · obtain ⟨M, rfl⟩ : ∃ M : Nat, N = M + 1 := ⟨N - 1, by omega⟩
      have h2' : (pressure s).2 = true := by rw [pressure_pos hpos]
      have hb' : (pressure s).1.retryAttempts = (M : Int) := by
        rw [pressure_pos hpos]
        simp
        omega
      have hp' : (pressure s).1.timerPending = false := by
        rw [pressure_pos hpos]
      rw [hrec, h2', ih _ M hb' hp']
      simp
      omega
    · have hN0 : N = 0 := by omega
      subst hN0
      have h2' : (pressure s).2 = false := by rw [pressure_zero hpos hp]
      have hb' : (pressure s).1.retryAttempts = ((0 : Nat) : Int) := by
        rw [pressure_zero hpos hp]
        simpa using hb
      have hp' : (pressure s).1.timerPending = false := by
        rw [pressure_zero hpos hp]
        exact hp
      rw [hrec, h2', ih _ 0 hb' hp']
      simp

/-- Counterexample to claim C1: a construction configured with
`retryAttempts: 0` does not perform 0 reconnect attempts — the
falsy-default idiom `options.retryAttempts || 3` gives it a budget of 3,
so three consecutive abnormal closures yield 3 reconnects, not 0. -/
theorem retry_configured_zero_counterexample :
    pressureCount (init (κ := Unit) "wss://example.com"
      { retryAttempts := some 0 }).1 3 = 3 ∧
    ¬ pressureCount (init (κ := Unit) "wss://example.com"
      { retryAttempts := some 0 }).1 3 = 0 := by
  constructor <;> decide

/-- Claim C1 (amended): a supervisor constructed with a positive
`retryAttempts: N` performs exactly `N` reconnect attempts under
repeated abnormal closures and then ceases (`k` consecutive abnormal
closures cause `min k N.toNat` reconnects, so the count stays at `N`
however many further abnormal closures arrive after the budget is
exhausted); constructing with the option omitted, or with
`retryAttempts: 0` (which falls back to the default via
`options.retryAttempts || 3`), performs exactly 3. -/
theorem retry_exactly_budget_amended (u : String) (delayOpt : Option Int)
    (N : Int) (k : Nat) :
    (0 < N →
      pressureCount (init (κ := κ) u
        { retryAttempts := some N, retryDelay := delayOpt }).1 k =
        min k N.toNat) ∧
    pressureCount (init (κ := κ) u
      { retryAttempts := none, retryDelay := delayOpt }).1 k = min k 3 ∧
    pressureCount (init (κ := κ) u
      { retryAttempts := some 0, retryDelay := delayOpt }).1 k = min k 3 := by
  refine ⟨fun hN => ?_, ?_, ?_⟩
  · refine pressureCount_eq_min k _ N.toNat ?_ rfl
    simp [init, connect, orDefault]
    omega
  · exact pressureCount_eq_min k _ 3 rfl rfl
  · exact pressureCount_eq_min k _ 3 rfl rfl

/-- Witness for the amended claim C1, matching the spec scenario: budget
2, delay 50, three consecutive abnormal closures, exactly 2 reconnect
attempts. -/
theorem retry_exactly_budget_amended_witness :
    pressureCount (init (κ := Unit) "wss://echo.websocket.org"
      { retryAttempts := some 2, retryDelay := some 50 }).1 3 =
      min 3 (Int.toNat 2) :=
  (retry_exactly_budget_amended "wss://echo.websocket.org" (some 50) 2 3).1
    (by decide)

/-- Helper: one enabled dispatch step preserves the retry-budget
invariant (budget never negative, and a pending reconnect timer implies
the budget is still positive). -/
lemma inv_preserved {s : SocketInsight κ} (e : Event κ)
    (h1 : 0 ≤ s.retryAttempts)
    (h2 : s.timerPending = true → 0 < s.retryAttempts)
    (he : enabled s e = true) :
    0 ≤ (step s e).1.retryAttempts ∧
    ((step s e).1.timerPending = true → 0 < (step s e).1.retryAttempts) := by
  cases e with
  | opened => simpa [step, handleOpen] using ⟨h1, h2⟩
  | message d => simpa [step, handleMessage] using ⟨h1, h2⟩
  | closed c r =>
    by_cases hc : c ≠ 1000 ∧ s.retryAttempts > 0
    · simp [step, handleClose, hc]
      exact h1
    · simp [step, handleClose, hc]
      exact ⟨h1, h2⟩
  | errored m => simpa [step, handleError] using ⟨h1, h2⟩
  | timerFire =>
    have hp : s.timerPending = true := by simpa [enabled] using he
    have hpos := h2 hp
    simp [step, timerFired, connect]
    omega
  | register n cb => simpa [step, registerListener] using ⟨h1, h2⟩
  | send m =>
    by_cases ho : s.readyState = WS_OPEN <;>
      simpa [step, sendMessage, ho] using ⟨h1, h2⟩
  | closeConn => simpa [step, closeConnection] using ⟨h1, h2⟩

/-- Helper: the retry-budget invariant holds in every state reachable
from an initial state that satisfies it. -/
lemma reachable_inv {s0 s : SocketInsight κ}
    (h0 : 0 ≤ s0.retryAttempts ∧
      (s0.timerPending = true → 0 < s0.retryAttempts))
    (hr : ReachableFrom s0 s) :
    0 ≤ s.retryAttempts ∧ (s.timerPending = true → 0 < s.retryAttempts) := by
  induction hr with
  | refl => exact h0
  | next e hstep he ih => exact inv_preserved e ih.1 ih.2 he

/-- Claim C9: from any construction with a non-negative (or omitted)
`retryAttempts` option, every reachable state of the dispatch relation
has a non-negative retry budget, a pending reconnect timer implies the
budget is positive (the decrement only happens when a timer scheduled
under a positive budget fires), and once the budget is 0 no reconnect is
attempted: no timer is pending and a further close event neither leaves a
timer pending nor emits a `setTimeout`. -/
theorem retry_budget_invariant (u : String) (opts : Options)
    (hopts : ∀ n, opts.retryAttempts = some n → 0 ≤ n)
    (s : SocketInsight κ) (hr : ReachableFrom (init (κ := κ) u opts).1 s) :
    0 ≤ s.retryAttempts ∧
    (s.timerPending = true → 0 < s.retryAttempts) ∧
    (s.retryAttempts = 0 →
      s.timerPending = false ∧
      ∀ (c : Int) (r : String),
        (step s (Event.closed c r)).1.timerPending = false ∧
        (step s (Event.closed c r)).2.any Effect.isSetTimeout = false) := by
  have h0 : 0 ≤ (init (κ := κ) u opts).1.retryAttempts ∧
      ((init (κ := κ) u opts).1.timerPending = true →
        0 < (init (κ := κ) u opts).1.retryAttempts) := by
    constructor
    · rcases ho : opts.retryAttempts with _ | n
      · simp [init, connect, orDefault, ho]
      · have hn := hopts n ho
        simp [init, connect, orDefault, ho]
        split <;> omega
    · intro h
      simp [init, connect] at h
  have hinv := reachable_inv h0 hr
  refine ⟨hinv.1, hinv.2, fun hz => ?_⟩
  have hpf : s.timerPending = false := by
    cases hT : s.timerPending
    · rfl
    · have := hinv.2 hT
      omega
  refine ⟨hpf, fun c r => ?_⟩
  rcases hl : s.listeners "close" with _ | cb <;>
    simp [step, handleClose, hl, hz, hpf, Effect.isSetTimeout]

/-- Witness for claim C9 at the default construction and its initial
state. -/
theorem retry_budget_invariant_witness :
    0 ≤ (init (κ := Unit) "wss://example.com" {}).1.retryAttempts :=
  (retry_budget_invariant "wss://example.com" {}
    (fun n h => by simp at h)
    (init (κ := Unit) "wss://example.com" {}).1 ReachableFrom.refl).1

end SocketInsight
